import Mathlib

/-!
Shallow embedding of the Gumroad subscription backend (src/api.py).

The resolver `check_gumroad_subscription`, the admin status sweep, the
cache-clear and cache-listing endpoints and the `/check-subscription`
response assembly are modelled as pure functions.  External effects are
passed explicitly:

* `now` — the value of `time.time()` at the call (whole seconds, `Nat`);
* `checkedAt` — the string `datetime.now().isoformat()` would produce;
* `sd : SalesData` — the JSON object returned by the upstream
  `GET /v2/sales` call (`gumroad_api.get_sales`);
* the module-level `subscription_cache` dict is threaded as an
  association list `Cache` with Python-dict semantics (replace in place
  on existing key, append on new key, insertion order preserved).

Machine floats from `time.time()` are modelled as `Nat` seconds: the two
comparisons the code performs (`now - ts < 300` and `now - ts > 300`)
have the same truth value under truncated `Nat` subtraction as under
float subtraction whenever `ts ≤ now`, and also when `ts > now` (both
yield "fresh, not expired").
-/

namespace GumroadApi

/-- An upstream sale record, as consumed by `check_gumroad_subscription`.
Every field is read with `dict.get`, so each is `Option`-typed; absent
JSON fields are `none`. -/
structure Sale where
  sale_id : Option String
  email : Option String
  created_at : Option String
  price : Option Int
  refunded : Option Bool
  disputed : Option Bool
  subscription_id : Option String
deriving DecidableEq, Repr

/-- One element of `subscription_details` (api.py lines 118-125): the
per-sale summary dict built inside the loop.  `refunded`/`disputed` are
read with default `False`. -/
structure SaleInfo where
  sale_id : Option String
  created_at : Option String
  price : Option Int
  refunded : Bool
  disputed : Bool
  subscription_id : Option String
deriving DecidableEq, Repr

/-- The dict returned by `check_gumroad_subscription` (api.py lines
136-146 on success, 158-164 on failure).  Fields that the failure
branch omits are `Option`-typed and `none` there. -/
structure Verdict where
  active : Bool
  email : String
  product_id : String
  total_sales : Option Nat
  last_purchase : Option String
  subscription_id : Option String
  last_price : Option Int
  subscription_details : Option (List SaleInfo)
  checked_at : String
  error : Option String
deriving DecidableEq, Repr

/-- A value of the `subscription_cache` dict: `{'data': ..., 'timestamp': ...}`
(api.py lines 149-152). -/
structure CacheEntry where
  data : Verdict
  timestamp : Nat
deriving DecidableEq, Repr

/-- The module-level `subscription_cache` dict, in insertion order. -/
abbrev Cache := List (String × CacheEntry)

/-- The JSON body of the upstream sales response, as read by the code:
`sales_data.get('success', True)`, `sales_data.get('message', ...)`,
`sales_data.get('sales', [])`. -/
structure SalesData where
  success : Option Bool
  message : Option String
  sales : Option (List Sale)
deriving DecidableEq, Repr

/-- `CACHE_DURATION = 300` (api.py line 29). -/
def CACHE_DURATION : Nat := 300

/-- Python's `str.lower()`: lowercase every character.  (Same semantics
as `String.toLower`, written over the character list so that it reduces
in the kernel.) -/
def pyLower (s : String) : String := String.mk (s.data.map Char.toLower)

/-- Python truthiness of `sale.get('subscription_id')`: `None` and the
empty string are falsy, any non-empty string is truthy (api.py line 129). -/
def truthyStr : Option String → Bool
  | none => false
  | some s => !(s == "")

/-- `sale.get('email', '')` (api.py line 109). -/
def saleEmail (s : Sale) : String := s.email.getD ""

/-- `sale.get('created_at', '')` (api.py line 133). -/
def saleCreated (s : Sale) : String := s.created_at.getD ""

/-- The filter on api.py lines 107-110:
`sale.get('email', '').lower() == email.lower()`. -/
def saleEmailMatches (email : String) (s : Sale) : Bool :=
  pyLower (saleEmail s) == pyLower email

/-- The condition on api.py lines 129-131: the sale has a truthy
`subscription_id` and is neither refunded nor disputed (both read with
default `False`). -/
def isQualifying (s : Sale) : Bool :=
  truthyStr s.subscription_id && !(s.refunded.getD false) && !(s.disputed.getD false)

/-- Python's `>` on strings: plain lexicographic comparison by code
point, as a `Bool`.  (Written over the character lists so that it
evaluates inside the kernel.) -/
def pyStrGt (a b : String) : Bool := decide (b.data < a.data)

/-- The latest-sale update on api.py lines 133-134:
`if not latest_sale or sale.get('created_at', '') > latest_sale.get('created_at', '')`.
Strictly-greater replaces, so ties keep the incumbent. -/
def updLatest (latest : Option Sale) (s : Sale) : Option Sale :=
  match latest with
  | none => some s
  | some l => if pyStrGt (saleCreated s) (saleCreated l) then some s else some l

/-- The loop on api.py lines 117-134, restricted to its two accumulators
`has_active_subscription` and `latest_sale` (the third accumulator,
`subscription_details`, is `List.map mkSaleInfo` and is kept separate). -/
def loopSales : List Sale → Bool → Option Sale → Bool × Option Sale
  | [], flag, latest => (flag, latest)
  | s :: rest, flag, latest =>
    if isQualifying s then loopSales rest true (updLatest latest s)
    else loopSales rest flag latest

/-- The `sale_info` dict built on api.py lines 118-125. -/
def mkSaleInfo (s : Sale) : SaleInfo :=
  { sale_id := s.sale_id
    created_at := s.created_at
    price := s.price
    refunded := s.refunded.getD false
    disputed := s.disputed.getD false
    subscription_id := s.subscription_id }

/-- `cache_key = f"{email.lower()}:{product_id}"` (api.py line 85). -/
def cacheKey (email productId : String) : String :=
  pyLower email ++ ":" ++ productId

/-- Python dict membership/indexing on the cache. -/
def lookupCache : Cache → String → Option CacheEntry
  | [], _ => none
  | (k, v) :: rest, key => if k == key then some v else lookupCache rest key

/-- Python dict assignment `subscription_cache[cache_key] = ...`:
replace in place if the key exists, else append. -/
def insertCache : Cache → String → CacheEntry → Cache
  | [], key, v => [(key, v)]
  | (k, w) :: rest, key, v =>
    if k == key then (key, v) :: rest else (k, w) :: insertCache rest key v

/-- `cache_key in subscription_cache`. -/
def containsKey (c : Cache) (k : String) : Bool :=
  (lookupCache c k).isSome

/-- The cache check on api.py lines 88-92: if an entry exists and
`current_time - entry.timestamp < CACHE_DURATION`, its stored verdict is
returned. -/
def freshHit (cache : Cache) (now : Nat) (key : String) : Option Verdict :=
  match lookupCache cache key with
  | some entry =>
    if now - entry.timestamp < CACHE_DURATION then some entry.data else none
  | none => none

/-- The success-path verdict (api.py lines 104-146): filter sales by
case-insensitive email, run the qualification loop, assemble the result
dict. -/
def computeVerdict (sd : SalesData) (checkedAt : String)
    (email productId : String) : Verdict :=
  let sales := sd.sales.getD []
  let user_sales := sales.filter (saleEmailMatches email)
  let scan := loopSales user_sales false none
  { active := scan.1
    email := email
    product_id := productId
    total_sales := some user_sales.length
    last_purchase := scan.2.bind Sale.created_at
    subscription_id := scan.2.bind Sale.subscription_id
    last_price := scan.2.bind Sale.price
    subscription_details := some (user_sales.map mkSaleInfo)
    checked_at := checkedAt
    error := none }

/-- The failure-branch verdict (api.py lines 156-164); the exception
message is `sales_data.get('message', 'API call failed')` raised on
line 102. -/
def failVerdict (sd : SalesData) (checkedAt : String)
    (email productId : String) : Verdict :=
  { active := false
    email := email
    product_id := productId
    total_sales := none
    last_purchase := none
    subscription_id := none
    last_price := none
    subscription_details := none
    checked_at := checkedAt
    error := some (sd.message.getD "API call failed") }

/-- The cache-miss path of `check_gumroad_subscription` (api.py lines
94-164): test `sales_data.get('success', True)`, then either the failure
verdict (cache untouched) or the computed verdict (written to the cache
under the key with timestamp `current_time`). -/
def resolveUpstream (sd : SalesData) (now : Nat) (checkedAt : String)
    (cache : Cache) (email productId : String) : Verdict × Cache :=
  if !(sd.success.getD true) then
    (failVerdict sd checkedAt email productId, cache)
  else
    let result := computeVerdict sd checkedAt email productId
    (result,
     insertCache cache (cacheKey email productId)
       { data := result, timestamp := now })

/-- `check_gumroad_subscription(email, product_id)` (api.py lines
81-164), with the upstream response, clock values and cache passed
explicitly; returns the verdict together with the cache after the call. -/
def check_gumroad_subscription (sd : SalesData) (now : Nat)
    (checkedAt : String) (cache : Cache) (email productId : String) :
    Verdict × Cache :=
  match freshHit cache now (cacheKey email productId) with
  | some v => (v, cache)
  | none => resolveUpstream sd now checkedAt cache email productId

/-- `expired_keys` (api.py lines 267-270): keys of entries with
`current_time - timestamp > CACHE_DURATION`. -/
def expiredKeys (cache : Cache) (now : Nat) : List String :=
  (cache.filter (fun kv => decide (now - kv.2.timestamp > CACHE_DURATION))).map
    Prod.fst

/-- The deletion loop on api.py lines 272-273: `del subscription_cache[key]`
for each listed key. -/
def removeKeys (cache : Cache) (ks : List String) : Cache :=
  cache.filter (fun kv => !ks.contains kv.1)

/-- The cache-related fields of the `/admin/status` response:
`cache_entries` is `len(subscription_cache)` taken before the sweep
(api.py line 263), `expired_cache_cleaned` is `len(expired_keys)`. -/
structure StatusReport where
  cache_entries : Nat
  expired_cache_cleaned : Nat
deriving DecidableEq, Repr

/-- The cache sweep performed by `/admin/status` (api.py lines 263-280),
returning the report fields and the cache after the sweep. -/
def admin_status (cache : Cache) (now : Nat) : StatusReport × Cache :=
  let cache_size := cache.length
  let expired := expiredKeys cache now
  ({ cache_entries := cache_size, expired_cache_cleaned := expired.length },
   removeKeys cache expired)

/-- `/admin/clear-cache` (api.py lines 336-347): reports the prior size
and empties the cache. -/
def clear_cache (cache : Cache) : Nat × Cache :=
  (cache.length, [])

/-- One element of the `/admin/subscribers` listing (api.py lines
356-361). -/
structure SubscriberInfo where
  data : Verdict
  cache_key : String
  cache_age_seconds : Nat
  cache_expired : Bool
deriving DecidableEq, Repr

/-- `/admin/subscribers` (api.py lines 349-368): every cache entry with
its key, age and computed `cache_expired = age > CACHE_DURATION` flag;
the cache is not modified. -/
def get_subscribers (cache : Cache) (now : Nat) : List SubscriberInfo :=
  cache.map (fun kv =>
    { data := kv.2.data
      cache_key := kv.1
      cache_age_seconds := now - kv.2.timestamp
      cache_expired := decide (now - kv.2.timestamp > CACHE_DURATION) })

/-- The JSON body assembled by `/check-subscription` (api.py lines
196-208), plus the optional `api_error` field copied on lines 210-211. -/
structure CheckResponse where
  active : Bool
  email : String
  product_id : String
  message : String
  last_purchase : Option String
  last_price : Option Int
  total_sales : Nat
  subscription_id : Option String
  subscription_details : List SaleInfo
  cached : Bool
  checked_at : String
  api_error : Option String
deriving DecidableEq, Repr

/-- The `/check-subscription` endpoint past its input validation (api.py
lines 193-213): resolve, then assemble the response; `cached` tests key
membership in the cache as it stands after the resolve call. -/
def check_subscription (sd : SalesData) (now : Nat) (checkedAt : String)
    (cache : Cache) (email productId : String) : CheckResponse × Cache :=
  let r := check_gumroad_subscription sd now checkedAt cache email productId
  ({ active := r.1.active
     email := r.1.email
     product_id := r.1.product_id
     message :=
       if r.1.active then "Active subscription found"
       else "No active subscription found"
     last_purchase := r.1.last_purchase
     last_price := r.1.last_price
     total_sales := r.1.total_sales.getD 0
     subscription_id := r.1.subscription_id
     subscription_details := r.1.subscription_details.getD []
     cached := containsKey r.2 (cacheKey email productId)
     checked_at := r.1.checked_at
     api_error := r.1.error }, r.2)

/-- Spec-side definition (refinement target), following the spec's
wording for the latest qualifying sale: "the qualifying sale with the
lexicographically greatest `created_at` string ... strictly-greater
replaces the current latest, so the first-encountered sale wins ties".
An earlier element is kept unless a later one is strictly greater. -/
def specFirstMaxByCreated : List Sale → Option Sale
  | [] => none
  | s :: rest =>
    match specFirstMaxByCreated rest with
    | none => some s
    | some m => if pyStrGt (saleCreated m) (saleCreated s) then some m else some s

/-- Helper for relating the left-fold tracker to `specFirstMaxByCreated`. -/
def pickLater (a : Sale) : Option Sale → Sale
  | none => a
  | some m => if pyStrGt (saleCreated m) (saleCreated a) then m else a

theorem pyStrGt_iff (a b : String) : pyStrGt a b = true ↔ b < a := by
  rw [String.lt_iff_toList_lt]
  simp [pyStrGt, String.toList]

theorem pyStrGt_eq_true {a b : String} (h : b < a) : pyStrGt a b = true :=
  (pyStrGt_iff a b).mpr h

theorem pyStrGt_ne_true {a b : String} (h : ¬ b < a) : ¬ pyStrGt a b = true :=
  fun hc => h ((pyStrGt_iff a b).mp hc)

/-! ### Lemmas about the qualification loop -/

theorem loopSales_eq (l : List Sale) :
    ∀ (flag : Bool) (latest : Option Sale),
    loopSales l flag latest =
      (flag || l.any isQualifying,
       List.foldl updLatest latest (l.filter isQualifying)) := by
  induction l with
  | nil => intro flag latest; simp [loopSales]
  | cons s rest ih =>
    intro flag latest
    by_cases h : isQualifying s
    · simp [loopSales, h, ih, List.filter_cons]
    · simp [loopSales, h, ih, List.filter_cons]

theorem updLatest_some (l s : Sale) :
    updLatest (some l) s =
      some (if pyStrGt (saleCreated s) (saleCreated l) then s else l) := by
  cases h : pyStrGt (saleCreated s) (saleCreated l) <;> simp [updLatest, h]

theorem specFirstMax_cons (s : Sale) (rest : List Sale) :
    specFirstMaxByCreated (s :: rest) =
      match specFirstMaxByCreated rest with
      | none => some s
      | some m =>
        if pyStrGt (saleCreated m) (saleCreated s) then some m
        else some s := rfl

theorem specFirstMax_cons_none {rest : List Sale}
    (hm : specFirstMaxByCreated rest = none) (s : Sale) :
    specFirstMaxByCreated (s :: rest) = some s := by
  rw [specFirstMax_cons, hm]

theorem specFirstMax_cons_some {rest : List Sale} {m : Sale}
    (hm : specFirstMaxByCreated rest = some m) (s : Sale) :
    specFirstMaxByCreated (s :: rest) =
      if pyStrGt (saleCreated m) (saleCreated s) then some m else some s := by
  rw [specFirstMax_cons, hm]

theorem foldl_updLatest_some (l : List Sale) :
    ∀ a : Sale,
    List.foldl updLatest (some a) l =
      some (pickLater a (specFirstMaxByCreated l)) := by
  induction l with
  | nil => intro a; simp [pickLater, specFirstMaxByCreated]
  | cons b rest ih =>
    intro a
    rw [List.foldl_cons, updLatest_some, ih, specFirstMax_cons]
    cases hm : specFirstMaxByCreated rest with
    | none => simp [pickLater]
    | some m =>
      simp only [pickLater]
      by_cases h1 : saleCreated a < saleCreated b
      · by_cases h2 : saleCreated b < saleCreated m
        · simp [pickLater, pyStrGt_iff, h1, h2, lt_trans h1 h2]
        · simp [pickLater, pyStrGt_iff, h1, h2]
      · by_cases h2 : saleCreated b < saleCreated m
        · simp [pickLater, pyStrGt_iff, h1, h2]
        · have h3 : ¬ saleCreated a < saleCreated m :=
            not_lt.mpr (le_trans (not_lt.mp h2) (not_lt.mp h1))
          simp [pickLater, pyStrGt_iff, h1, h2, h3]

theorem foldl_updLatest_none (l : List Sale) :
    List.foldl updLatest none l = specFirstMaxByCreated l := by
  cases l with
  | nil => rfl
  | cons s rest =>
    rw [List.foldl_cons, show updLatest none s = some s from rfl,
        foldl_updLatest_some, specFirstMax_cons]
    cases hm : specFirstMaxByCreated rest with
    | none => simp [pickLater]
    | some m =>
      simp only [pickLater]
      by_cases h : saleCreated s < saleCreated m
      · simp [pyStrGt_iff, h]
      · simp [pyStrGt_iff, h]

theorem specFirstMax_eq_none_iff (l : List Sale) :
    specFirstMaxByCreated l = none ↔ l = [] := by
  cases l with
  | nil => simp [specFirstMaxByCreated]
  | cons s rest =>
    constructor
    · intro h
      exfalso
      cases hm : specFirstMaxByCreated rest with
      | none => rw [specFirstMax_cons_none hm] at h; simp at h
      | some m =>
        rw [specFirstMax_cons_some hm] at h
        by_cases hlt : saleCreated s < saleCreated m
        · rw [if_pos (pyStrGt_eq_true hlt)] at h
          simp at h
        · rw [if_neg (pyStrGt_ne_true hlt)] at h
          simp at h
    · intro h; simp at h

theorem specFirstMax_mem {l : List Sale} {q : Sale}
    (h : specFirstMaxByCreated l = some q) : q ∈ l := by
  induction l with
  | nil => simp [specFirstMaxByCreated] at h
  | cons s rest ih =>
    cases hm : specFirstMaxByCreated rest with
    | none =>
      rw [specFirstMax_cons_none hm] at h
      simp only [Option.some.injEq] at h
      exact h ▸ List.mem_cons_self s rest
    | some m =>
      rw [specFirstMax_cons_some hm] at h
      by_cases hlt : saleCreated s < saleCreated m
      · rw [if_pos (pyStrGt_eq_true hlt)] at h
        simp only [Option.some.injEq] at h
        exact List.mem_cons_of_mem s (ih (h ▸ hm))
      · rw [if_neg (pyStrGt_ne_true hlt)] at h
        simp only [Option.some.injEq] at h
        exact h ▸ List.mem_cons_self s rest

theorem specFirstMax_ge (l : List Sale) :
    ∀ q : Sale, specFirstMaxByCreated l = some q →
    ∀ s ∈ l, saleCreated s ≤ saleCreated q := by
  induction l with
  | nil => intro q h s hs; simp at hs
  | cons b rest ih =>
    intro q h s hs
    cases hm : specFirstMaxByCreated rest with
    | none =>
      rw [specFirstMax_cons_none hm] at h
      simp only [Option.some.injEq] at h
      have hrest : rest = [] := (specFirstMax_eq_none_iff rest).mp hm
      subst hrest
      rcases List.mem_cons.mp hs with rfl | hmem
      · exact le_of_eq (congrArg saleCreated h)
      · simp at hmem
    | some m =>
      rw [specFirstMax_cons_some hm] at h
      by_cases hlt : saleCreated b < saleCreated m
      · rw [if_pos (pyStrGt_eq_true hlt)] at h
        simp only [Option.some.injEq] at h
        subst h
        rcases List.mem_cons.mp hs with rfl | hmem
        · exact le_of_lt hlt
        · exact ih m hm s hmem
      · rw [if_neg (pyStrGt_ne_true hlt)] at h
        simp only [Option.some.injEq] at h
        subst h
        rcases List.mem_cons.mp hs with rfl | hmem
        · exact le_rfl
        · exact le_trans (ih m hm s hmem) (not_lt.mp hlt)

/-! ### Lemmas about the cache -/

theorem lookup_insertCache_self (c : Cache) (k : String) (v : CacheEntry) :
    lookupCache (insertCache c k v) k = some v := by
  induction c with
  | nil => simp [insertCache, lookupCache]
  | cons kv rest ih =>
    by_cases h : kv.1 = k
    · simp [insertCache, lookupCache, h]
    · simp only [insertCache, lookupCache]
      rw [show (kv.1 == k) = false from beq_eq_false_iff_ne.mpr h]
      simpa [lookupCache, beq_eq_false_iff_ne.mpr h] using ih

theorem lookup_mem {c : Cache} {k : String} {v : CacheEntry}
    (h : lookupCache c k = some v) : (k, v) ∈ c := by
  induction c with
  | nil => simp [lookupCache] at h
  | cons kv rest ih =>
    simp only [lookupCache] at h
    by_cases hk : kv.1 = k
    · rw [show (kv.1 == k) = true from beq_iff_eq.mpr hk] at h
      simp at h
      have : kv = (k, v) := by
        cases kv; simp_all
      simp [this]
    · rw [show (kv.1 == k) = false from beq_eq_false_iff_ne.mpr hk] at h
      simp at h
      exact List.mem_cons_of_mem kv (ih h)

theorem lookup_filter_keep (p : String × CacheEntry → Bool) {c : Cache}
    {k : String} {v : CacheEntry} (h : lookupCache c k = some v)
    (hp : p (k, v) = true) :
    lookupCache (c.filter p) k = some v := by
  induction c with
  | nil => simp [lookupCache] at h
  | cons kv rest ih =>
    simp only [lookupCache] at h
    by_cases hk : kv.1 = k
    · rw [show (kv.1 == k) = true from beq_iff_eq.mpr hk] at h
      simp at h
      have hkv : kv = (k, v) := by cases kv; simp_all
      subst hkv
      simp [List.filter_cons, hp, lookupCache]
    · rw [show (kv.1 == k) = false from beq_eq_false_iff_ne.mpr hk] at h
      simp at h
      by_cases hpk : p kv = true
      · simp only [List.filter_cons, hpk, if_true, lookupCache]
        rw [show (kv.1 == k) = false from beq_eq_false_iff_ne.mpr hk]
        simpa using ih h
      · simp only [List.filter_cons, hpk, if_false]
        exact ih h

theorem keys_nodup_unique {c : Cache} (hn : (c.map Prod.fst).Nodup)
    {kv kv' : String × CacheEntry} (h : kv ∈ c) (h' : kv' ∈ c)
    (hk : kv.1 = kv'.1) : kv = kv' := by
  induction c with
  | nil => simp at h
  | cons a rest ih =>
    rw [List.map_cons, List.nodup_cons] at hn
    rcases List.mem_cons.mp h with rfl | hmem
    · rcases List.mem_cons.mp h' with rfl | hmem'
      · rfl
      · exact absurd (hk ▸ List.mem_map_of_mem Prod.fst hmem') hn.1
    · rcases List.mem_cons.mp h' with rfl | hmem'
      · exact absurd (hk ▸ List.mem_map_of_mem Prod.fst hmem) hn.1
      · exact ih hn.2 hmem hmem'

theorem sweep_eq_filter {c : Cache} {now : Nat}
    (hn : (c.map Prod.fst).Nodup) :
    removeKeys c (expiredKeys c now) =
      c.filter (fun kv => !(decide (now - kv.2.timestamp > CACHE_DURATION))) := by
  unfold removeKeys
  apply List.filter_congr
  intro kv hkv
  by_cases hexp : now - kv.2.timestamp > CACHE_DURATION
  · have hmem : kv.1 ∈ expiredKeys c now := by
      unfold expiredKeys
      exact List.mem_map_of_mem Prod.fst
        (List.mem_filter.mpr ⟨hkv, by simpa using hexp⟩)
    simpa [hexp] using hmem
  · have hnot : ¬ kv.1 ∈ expiredKeys c now := by
      intro hmem
      unfold expiredKeys at hmem
      rcases List.mem_map.mp hmem with ⟨kv', hkv', hfst⟩
      rcases List.mem_filter.mp hkv' with ⟨hkv'mem, hkv'exp⟩
      have hkvEq : kv' = kv := keys_nodup_unique hn hkv'mem hkv hfst
      subst hkvEq
      simp at hkv'exp
      exact hexp hkv'exp
    simpa [hexp] using hnot

/-! ### Lemmas about the three paths of the resolver -/

theorem success_getD_true {sd : SalesData} (hok : sd.success ≠ some false) :
    sd.success.getD true = true := by
  cases h : sd.success with
  | none => rfl
  | some b =>
    cases b with
    | false => exact absurd h hok
    | true => rfl

theorem check_fresh {sd : SalesData} {now : Nat} {ca : String}
    {cache : Cache} {email productId : String} {entry : CacheEntry}
    (hlook : lookupCache cache (cacheKey email productId) = some entry)
    (hfresh : now - entry.timestamp < CACHE_DURATION) :
    check_gumroad_subscription sd now ca cache email productId =
      (entry.data, cache) := by
  unfold check_gumroad_subscription freshHit
  rw [hlook]
  simp [hfresh]

theorem check_miss_fail {sd : SalesData} {now : Nat} {ca : String}
    {cache : Cache} {email productId : String}
    (hmiss : freshHit cache now (cacheKey email productId) = none)
    (hfail : sd.success = some false) :
    check_gumroad_subscription sd now ca cache email productId =
      (failVerdict sd ca email productId, cache) := by
  unfold check_gumroad_subscription
  rw [hmiss]
  unfold resolveUpstream
  rw [hfail]
  simp

theorem check_miss_ok {sd : SalesData} {now : Nat} {ca : String}
    {cache : Cache} {email productId : String}
    (hmiss : freshHit cache now (cacheKey email productId) = none)
    (hok : sd.success ≠ some false) :
    check_gumroad_subscription sd now ca cache email productId =
      (computeVerdict sd ca email productId,
       insertCache cache (cacheKey email productId)
         { data := computeVerdict sd ca email productId, timestamp := now }) := by
  unfold check_gumroad_subscription
  rw [hmiss]
  unfold resolveUpstream
  rw [success_getD_true hok]
  simp

theorem isQualifying_iff (s : Sale) :
    isQualifying s = true ↔
      (truthyStr s.subscription_id = true ∧ s.refunded.getD false = false ∧
       s.disputed.getD false = false) := by
  unfold isQualifying
  simp [Bool.and_eq_true, Bool.not_eq_true', and_assoc]

theorem computeVerdict_active (sd : SalesData) (ca : String)
    (email productId : String) :
    (computeVerdict sd ca email productId).active =
      ((sd.sales.getD []).filter (saleEmailMatches email)).any isQualifying := by
  unfold computeVerdict
  simp [loopSales_eq]

theorem computeVerdict_scan2 (sd : SalesData) (email : String) :
    (loopSales ((sd.sales.getD []).filter (saleEmailMatches email)) false none).2 =
      specFirstMaxByCreated
        (((sd.sales.getD []).filter (saleEmailMatches email)).filter
          isQualifying) := by
  rw [loopSales_eq, foldl_updLatest_none]

theorem lookup_insertCache_ne (c : Cache) {k k' : String} (h : k' ≠ k)
    (v : CacheEntry) :
    lookupCache (insertCache c k' v) k = lookupCache c k := by
  induction c with
  | nil =>
    simp [insertCache, lookupCache, beq_eq_false_iff_ne.mpr h]
  | cons a rest ih =>
    obtain ⟨ak, av⟩ := a
    by_cases ha : ak = k'
    · subst ha
      simp only [insertCache, beq_self_eq_true, if_true, lookupCache]
      rw [show (ak == k) = false from beq_eq_false_iff_ne.mpr (by simpa using h)]
      rfl
    · simp only [insertCache, lookupCache,
        show (ak == k') = false from beq_eq_false_iff_ne.mpr ha]
      by_cases hk : ak = k
      · simp [hk]
      · simp only [show (ak == k) = false from beq_eq_false_iff_ne.mpr hk,
          if_false, Bool.false_eq_true]
        exact ih

theorem contains_insert_of_contains {c : Cache} {k : String}
    (k' : String) (v : CacheEntry) (h : containsKey c k = true) :
    containsKey (insertCache c k' v) k = true := by
  by_cases hk : k' = k
  · subst hk
    simp [containsKey, lookup_insertCache_self]
  · unfold containsKey at h ⊢
    rw [lookup_insertCache_ne c hk v]
    exact h

theorem check_preserves_keys (sd : SalesData) (now : Nat) (ca : String)
    (cache : Cache) (email productId k : String)
    (h : containsKey cache k = true) :
    containsKey (check_gumroad_subscription sd now ca cache email productId).2
      k = true := by
  unfold check_gumroad_subscription
  cases hf : freshHit cache now (cacheKey email productId) with
  | some v => exact h
  | none =>
    unfold resolveUpstream
    by_cases hs : sd.success.getD true = true
    · rw [hs]
      simpa using contains_insert_of_contains (cacheKey email productId)
        { data := computeVerdict sd ca email productId, timestamp := now } h
    · rw [show sd.success.getD true = false from by simpa using hs]
      simpa using h

theorem admin_status_snd (cache : Cache) (now : Nat) :
    (admin_status cache now).2 = removeKeys cache (expiredKeys cache now) :=
  rfl

theorem computeVerdict_fields (sd : SalesData) (ca : String)
    (email productId : String) :
    computeVerdict sd ca email productId =
      { active := ((sd.sales.getD []).filter (saleEmailMatches email)).any
          isQualifying
        email := email
        product_id := productId
        total_sales :=
          some ((sd.sales.getD []).filter (saleEmailMatches email)).length
        last_purchase :=
          (specFirstMaxByCreated
            (((sd.sales.getD []).filter (saleEmailMatches email)).filter
              isQualifying)).bind Sale.created_at
        subscription_id :=
          (specFirstMaxByCreated
            (((sd.sales.getD []).filter (saleEmailMatches email)).filter
              isQualifying)).bind Sale.subscription_id
        last_price :=
          (specFirstMaxByCreated
            (((sd.sales.getD []).filter (saleEmailMatches email)).filter
              isQualifying)).bind Sale.price
        subscription_details :=
          some (((sd.sales.getD []).filter (saleEmailMatches email)).map
            mkSaleInfo)
        checked_at := ca
        error := none } := by
  unfold computeVerdict
  simp only [loopSales_eq, foldl_updLatest_none, Bool.false_or]

/-! ### Concrete fixtures used by the witnesses -/

def exSale1 : Sale :=
  { sale_id := some "s1", email := some "x@y.com",
    created_at := some "2024-01-01T00:00:00Z", price := some 100,
    refunded := some false, disputed := some false,
    subscription_id := some "sub1" }

def exSale2 : Sale :=
  { sale_id := some "s2", email := some "X@Y.com",
    created_at := some "2024-02-01T00:00:00Z", price := some 200,
    refunded := some false, disputed := some false,
    subscription_id := some "sub2" }

def exSaleRefunded : Sale :=
  { sale_id := some "s3", email := some "x@y.com",
    created_at := some "2024-03-01T00:00:00Z", price := some 300,
    refunded := some true, disputed := some false,
    subscription_id := some "sub3" }

def exSaleEmptySub : Sale :=
  { sale_id := some "s4", email := some "x@y.com",
    created_at := some "2024-01-01T00:00:00Z", price := some 100,
    refunded := some false, disputed := some false,
    subscription_id := some "" }

def exSd : SalesData :=
  { success := none, message := none,
    sales := some [exSale1, exSale2, exSaleRefunded] }

def exSdFail : SalesData :=
  { success := some false, message := some "boom", sales := some [exSale1] }

def exVerdict : Verdict :=
  (check_gumroad_subscription exSd 0 "t0" [] "x@y.com" "p1").1

def exEntry : CacheEntry := { data := exVerdict, timestamp := 0 }

def exCache : Cache := [(cacheKey "x@y.com" "p1", exEntry)]

/-! ### Claims -/

/-- **C1** (amended): for every query that reaches the upstream call
(cache miss, upstream success), the verdict has `active = true` iff at
least one upstream sale matches the query email case-insensitively and
has a non-null **and non-empty** `subscription_id` and
`refunded = false` and `disputed = false`.  (Amendment: the source tests
Python truthiness of `subscription_id`, so a present-but-empty string
does not qualify, contrary to the claim's plain "non-null".) -/
theorem c1_active_iff_truthy_qualifying
    (sd : SalesData) (now : Nat) (ca : String) (cache : Cache)
    (email productId : String)
    (hmiss : freshHit cache now (cacheKey email productId) = none)
    (hok : sd.success ≠ some false) :
    ((check_gumroad_subscription sd now ca cache email productId).1.active
        = true
      ↔ ∃ s ∈ sd.sales.getD [],
          saleEmailMatches email s = true ∧
          truthyStr s.subscription_id = true ∧
          s.refunded.getD false = false ∧
          s.disputed.getD false = false) := by
  rw [check_miss_ok hmiss hok]
  show (computeVerdict sd ca email productId).active = true ↔ _
  rw [computeVerdict_active, List.any_eq_true]
  constructor
  · rintro ⟨s, hs, hq⟩
    rcases List.mem_filter.mp hs with ⟨h1, h2⟩
    exact ⟨s, h1, h2, (isQualifying_iff s).mp hq⟩
  · rintro ⟨s, hs, hmatch, hq⟩
    exact ⟨s, List.mem_filter.mpr ⟨hs, hmatch⟩, (isQualifying_iff s).mpr hq⟩

/-- **C1**, counterexample to the claim as stated: a sale whose
`subscription_id` is the empty string (non-null) and which is neither
refunded nor disputed matches the email, yet the resolver reports
`active = false`, refuting the claimed "active iff some matching sale
has non-null `subscription_id` and is not refunded/disputed". -/
theorem c1_counterexample :
    ¬ (((check_gumroad_subscription
            { success := none, message := none, sales := some [exSaleEmptySub] }
            0 "t" [] "x@y.com" "p1").1.active = true)
        ↔ ∃ s ∈ [exSaleEmptySub],
            saleEmailMatches "x@y.com" s = true ∧
            s.subscription_id ≠ none ∧
            s.refunded.getD false = false ∧
            s.disputed.getD false = false) := by
  decide

/-- Witness for `c1_active_iff_truthy_qualifying` at a concrete input. -/
theorem c1_witness :
    freshHit [] 0 (cacheKey "x@y.com" "p1") = none ∧
    exSd.success ≠ some false ∧
    ((check_gumroad_subscription exSd 0 "t" [] "x@y.com" "p1").1.active = true
      ↔ ∃ s ∈ exSd.sales.getD [],
          saleEmailMatches "x@y.com" s = true ∧
          truthyStr s.subscription_id = true ∧
          s.refunded.getD false = false ∧
          s.disputed.getD false = false) :=
  ⟨by decide, by decide,
   c1_active_iff_truthy_qualifying exSd 0 "t" [] "x@y.com" "p1"
     (by decide) (by decide)⟩

/-- **C2**: on a cache miss with upstream success and at least one
qualifying matching sale, the verdict's `last_purchase`,
`subscription_id` and `last_price` are all taken from the sale selected
by `specFirstMaxByCreated` over the qualifying matching sales — the
spec-side rule "lexicographically greatest `created_at` string,
strictly-greater replaces, first-encountered wins exact ties" — and
that sale is itself qualifying with maximal `created_at`. -/
theorem c2_fields_from_latest_qualifying
    (sd : SalesData) (now : Nat) (ca : String) (cache : Cache)
    (email productId : String)
    (hmiss : freshHit cache now (cacheKey email productId) = none)
    (hok : sd.success ≠ some false)
    (hqual : ((sd.sales.getD []).filter (saleEmailMatches email)).filter
        isQualifying ≠ []) :
    ∃ q : Sale,
      specFirstMaxByCreated
          (((sd.sales.getD []).filter (saleEmailMatches email)).filter
            isQualifying) = some q ∧
      q ∈ ((sd.sales.getD []).filter (saleEmailMatches email)).filter
            isQualifying ∧
      (∀ s ∈ ((sd.sales.getD []).filter (saleEmailMatches email)).filter
            isQualifying, saleCreated s ≤ saleCreated q) ∧
      (check_gumroad_subscription sd now ca cache email
          productId).1.last_purchase = q.created_at ∧
      (check_gumroad_subscription sd now ca cache email
          productId).1.subscription_id = q.subscription_id ∧
      (check_gumroad_subscription sd now ca cache email
          productId).1.last_price = q.price := by
  cases hq : specFirstMaxByCreated
      (((sd.sales.getD []).filter (saleEmailMatches email)).filter
        isQualifying) with
  | none => exact absurd ((specFirstMax_eq_none_iff _).mp hq) hqual
  | some q =>
    refine ⟨q, rfl, specFirstMax_mem hq, specFirstMax_ge _ q hq, ?_, ?_, ?_⟩
    · rw [check_miss_ok hmiss hok]
      show (computeVerdict sd ca email productId).last_purchase = _
      rw [computeVerdict_fields, hq]
      rfl
    · rw [check_miss_ok hmiss hok]
      show (computeVerdict sd ca email productId).subscription_id = _
      rw [computeVerdict_fields, hq]
      rfl
    · rw [check_miss_ok hmiss hok]
      show (computeVerdict sd ca email productId).last_price = _
      rw [computeVerdict_fields, hq]
      rfl

/-- Witness for `c2_fields_from_latest_qualifying` at a concrete input. -/
theorem c2_witness :
    freshHit [] 0 (cacheKey "x@y.com" "p1") = none ∧
    exSd.success ≠ some false ∧
    ((exSd.sales.getD []).filter (saleEmailMatches "x@y.com")).filter
        isQualifying ≠ [] ∧
    (∃ q : Sale,
      specFirstMaxByCreated
          (((exSd.sales.getD []).filter (saleEmailMatches "x@y.com")).filter
            isQualifying) = some q ∧
      q ∈ ((exSd.sales.getD []).filter (saleEmailMatches "x@y.com")).filter
            isQualifying ∧
      (∀ s ∈ ((exSd.sales.getD []).filter
            (saleEmailMatches "x@y.com")).filter isQualifying,
        saleCreated s ≤ saleCreated q) ∧
      (check_gumroad_subscription exSd 0 "t" [] "x@y.com"
          "p1").1.last_purchase = q.created_at ∧
      (check_gumroad_subscription exSd 0 "t" [] "x@y.com"
          "p1").1.subscription_id = q.subscription_id ∧
      (check_gumroad_subscription exSd 0 "t" [] "x@y.com"
          "p1").1.last_price = q.price) :=
  ⟨by decide, by decide, by decide,
   c2_fields_from_latest_qualifying exSd 0 "t" [] "x@y.com" "p1"
     (by decide) (by decide) (by decide)⟩

/-- **C3**: on a cache miss where the upstream response signals failure
(`success = false`), the resolver returns a verdict with
`active = false` and `error` set to the failure description, and the
cache is left unchanged (the failure result is not written). -/
theorem c3_failure_inactive_uncached
    (sd : SalesData) (now : Nat) (ca : String) (cache : Cache)
    (email productId : String)
    (hmiss : freshHit cache now (cacheKey email productId) = none)
    (hfail : sd.success = some false) :
    (check_gumroad_subscription sd now ca cache email productId).1.active
        = false ∧
    (check_gumroad_subscription sd now ca cache email productId).1.error
        = some (sd.message.getD "API call failed") ∧
    (check_gumroad_subscription sd now ca cache email productId).2 = cache := by
  rw [check_miss_fail hmiss hfail]
  exact ⟨rfl, rfl, rfl⟩

/-- Witness for `c3_failure_inactive_uncached` at a concrete input. -/
theorem c3_witness :
    freshHit [] 7 (cacheKey "x@y.com" "p1") = none ∧
    exSdFail.success = some false ∧
    ((check_gumroad_subscription exSdFail 7 "t" [] "x@y.com" "p1").1.active
        = false ∧
     (check_gumroad_subscription exSdFail 7 "t" [] "x@y.com" "p1").1.error
        = some (exSdFail.message.getD "API call failed") ∧
     (check_gumroad_subscription exSdFail 7 "t" [] "x@y.com" "p1").2 = []) :=
  ⟨by decide, by decide,
   c3_failure_inactive_uncached exSdFail 7 "t" [] "x@y.com" "p1"
     (by decide) (by decide)⟩

/-- **C4**: if the cache holds an entry for the query's key whose age
`now - timestamp` is strictly below 300 seconds, the resolver returns
that entry's stored verdict unchanged and leaves the cache unmodified
(no timestamp refresh), for every upstream response (the upstream data
is never consulted); consequently a second call with the same key while
the entry is still within the freshness window returns the identical
verdict with `checked_at` unchanged. -/
theorem c4_fresh_hit_idempotent
    (sd : SalesData) (now : Nat) (ca : String) (cache : Cache)
    (email productId : String) (entry : CacheEntry)
    (hlook : lookupCache cache (cacheKey email productId) = some entry)
    (hfresh : now - entry.timestamp < CACHE_DURATION) :
    check_gumroad_subscription sd now ca cache email productId
        = (entry.data, cache) ∧
    (∀ sd2 now2 ca2, now2 - entry.timestamp < CACHE_DURATION →
      check_gumroad_subscription sd2 now2 ca2
          (check_gumroad_subscription sd now ca cache email productId).2
          email productId
        = (entry.data, cache)) := by
  constructor
  · exact check_fresh hlook hfresh
  · intro sd2 now2 ca2 hf2
    rw [check_fresh hlook hfresh]
    exact check_fresh hlook hf2

/-- Witness for `c4_fresh_hit_idempotent` at a concrete input. -/
theorem c4_witness :
    lookupCache exCache (cacheKey "x@y.com" "p1") = some exEntry ∧
    100 - exEntry.timestamp < CACHE_DURATION ∧
    (check_gumroad_subscription exSdFail 100 "t1" exCache "x@y.com" "p1"
        = (exEntry.data, exCache) ∧
     (∀ sd2 now2 ca2, now2 - exEntry.timestamp < CACHE_DURATION →
       check_gumroad_subscription sd2 now2 ca2
           (check_gumroad_subscription exSdFail 100 "t1" exCache "x@y.com"
             "p1").2 "x@y.com" "p1"
         = (exEntry.data, exCache))) :=
  ⟨by decide, by decide,
   c4_fresh_hit_idempotent exSdFail 100 "t1" exCache "x@y.com" "p1" exEntry
     (by decide) (by decide)⟩

/-- **C5**: on a cache miss with upstream success, `total_sales` counts
the sales whose email matches the query case-insensitively (matching
sales, not only qualifying ones); and when no matching sale qualifies,
the verdict has `active = false`, `subscription_id = none` and
`last_purchase = none` even though `total_sales` may be positive. -/
theorem c5_total_sales_counts_matches
    (sd : SalesData) (now : Nat) (ca : String) (cache : Cache)
    (email productId : String)
    (hmiss : freshHit cache now (cacheKey email productId) = none)
    (hok : sd.success ≠ some false) :
    (check_gumroad_subscription sd now ca cache email productId).1.total_sales
        = some ((sd.sales.getD []).filter (saleEmailMatches email)).length ∧
    (((sd.sales.getD []).filter (saleEmailMatches email)).any isQualifying
        = false →
      (check_gumroad_subscription sd now ca cache email productId).1.active
          = false ∧
      (check_gumroad_subscription sd now ca cache email
          productId).1.subscription_id = none ∧
      (check_gumroad_subscription sd now ca cache email
          productId).1.last_purchase = none) := by
  rw [check_miss_ok hmiss hok, computeVerdict_fields]
  refine ⟨rfl, fun hnone => ?_⟩
  have hnil : ((sd.sales.getD []).filter (saleEmailMatches email)).filter
      isQualifying = [] := by
    rw [List.filter_eq_nil_iff]
    intro a ha
    have := (List.any_eq_false.mp hnone) a ha
    simpa using this
  refine ⟨hnone, ?_, ?_⟩
  · rw [hnil]
    rfl
  · rw [hnil]
    rfl

/-- Witness for `c5_total_sales_counts_matches` at a concrete input with
a matching but non-qualifying (refunded) sale, so `total_sales = 1`
while `active = false`. -/
theorem c5_witness :
    freshHit [] 0 (cacheKey "x@y.com" "p1") = none ∧
    ({ success := none, message := none, sales := some [exSaleRefunded] }
        : SalesData).success ≠ some false ∧
    (check_gumroad_subscription
        { success := none, message := none, sales := some [exSaleRefunded] }
        0 "t" [] "x@y.com" "p1").1.total_sales = some 1 ∧
    ((check_gumroad_subscription
        { success := none, message := none, sales := some [exSaleRefunded] }
        0 "t" [] "x@y.com" "p1").1.active = false ∧
     (check_gumroad_subscription
        { success := none, message := none, sales := some [exSaleRefunded] }
        0 "t" [] "x@y.com" "p1").1.subscription_id = none ∧
     (check_gumroad_subscription
        { success := none, message := none, sales := some [exSaleRefunded] }
        0 "t" [] "x@y.com" "p1").1.last_purchase = none) :=
  ⟨by decide, by decide,
   (c5_total_sales_counts_matches
      { success := none, message := none, sales := some [exSaleRefunded] }
      0 "t" [] "x@y.com" "p1" (by decide) (by decide)).1,
   (c5_total_sales_counts_matches
      { success := none, message := none, sales := some [exSaleRefunded] }
      0 "t" [] "x@y.com" "p1" (by decide) (by decide)).2 (by decide)⟩

/-- **C6**: emails equal up to letter case yield the same cache key
(lowercased email, a colon, and the product id compared exactly), so the
fresh entry written by a successful resolve for one spelling is served
to a resolve for the other spelling within the freshness window. -/
theorem c6_cache_key_case_insensitive
    (e1 e2 p : String) (hcase : pyLower e1 = pyLower e2)
    (sd : SalesData) (now : Nat) (ca : String) (cache : Cache)
    (hmiss : freshHit cache now (cacheKey e1 p) = none)
    (hok : sd.success ≠ some false) :
    cacheKey e1 p = cacheKey e2 p ∧
    (∀ sd2 now2 ca2, now2 - now < CACHE_DURATION →
      check_gumroad_subscription sd2 now2 ca2
          (check_gumroad_subscription sd now ca cache e1 p).2 e2 p
        = ((check_gumroad_subscription sd now ca cache e1 p).1,
           (check_gumroad_subscription sd now ca cache e1 p).2)) := by
  have hkey : cacheKey e1 p = cacheKey e2 p := by
    unfold cacheKey
    rw [hcase]
  refine ⟨hkey, fun sd2 now2 ca2 hf2 => ?_⟩
  rw [check_miss_ok hmiss hok]
  have hlook : lookupCache
      (insertCache cache (cacheKey e1 p)
        { data := computeVerdict sd ca e1 p, timestamp := now })
      (cacheKey e2 p)
      = some { data := computeVerdict sd ca e1 p, timestamp := now } := by
    rw [← hkey]
    exact lookup_insertCache_self cache (cacheKey e1 p) _
  exact check_fresh hlook hf2

/-- Witness for `c6_cache_key_case_insensitive` at a concrete input. -/
theorem c6_witness :
    pyLower "A@B.com" = pyLower "a@b.com" ∧
    freshHit [] 0 (cacheKey "A@B.com" "p1") = none ∧
    exSd.success ≠ some false ∧
    (cacheKey "A@B.com" "p1" = cacheKey "a@b.com" "p1" ∧
     (∀ sd2 now2 ca2, now2 - 0 < CACHE_DURATION →
       check_gumroad_subscription sd2 now2 ca2
           (check_gumroad_subscription exSd 0 "t" [] "A@B.com" "p1").2
           "a@b.com" "p1"
         = ((check_gumroad_subscription exSd 0 "t" [] "A@B.com" "p1").1,
            (check_gumroad_subscription exSd 0 "t" [] "A@B.com" "p1").2))) :=
  ⟨by decide, by decide, by decide,
   c6_cache_key_case_insensitive "A@B.com" "a@b.com" "p1" (by decide)
     exSd 0 "t" [] (by decide) (by decide)⟩

/-- **C7**: on a cache miss the resolver's failure branch is taken
exactly when the upstream `success` field is explicitly `false`; a
missing `success` field (modelled as `none`) or any other value is
treated as success, and the normal verdict is computed and cached. -/
theorem c7_success_leniency
    (sd : SalesData) (now : Nat) (ca : String) (cache : Cache)
    (email productId : String)
    (hmiss : freshHit cache now (cacheKey email productId) = none) :
    (sd.success = some false →
      check_gumroad_subscription sd now ca cache email productId
        = (failVerdict sd ca email productId, cache)) ∧
    (sd.success ≠ some false →
      check_gumroad_subscription sd now ca cache email productId
        = (computeVerdict sd ca email productId,
           insertCache cache (cacheKey email productId)
             { data := computeVerdict sd ca email productId,
               timestamp := now })) :=
  ⟨fun hfail => check_miss_fail hmiss hfail,
   fun hok => check_miss_ok hmiss hok⟩

/-- Witness for `c7_success_leniency` at a concrete input whose
`success` field is missing (`none`), hitting the success path. -/
theorem c7_witness :
    freshHit [] 0 (cacheKey "x@y.com" "p1") = none ∧
    exSd.success = none ∧
    exSd.success ≠ some false ∧
    check_gumroad_subscription exSd 0 "t" [] "x@y.com" "p1"
      = (computeVerdict exSd "t" "x@y.com" "p1",
         insertCache [] (cacheKey "x@y.com" "p1")
           { data := computeVerdict exSd "t" "x@y.com" "p1",
             timestamp := 0 }) :=
  ⟨by decide, by decide, by decide,
   (c7_success_leniency exSd 0 "t" [] "x@y.com" "p1" (by decide)).2
     (by decide)⟩

/-- Mixed-age cache for the sweep witnesses: one entry aged past 300
seconds at time 400 and one fresh entry. -/
def exCacheMixed : Cache :=
  [("a:p", { data := exVerdict, timestamp := 0 }),
   ("b:p", { data := exVerdict, timestamp := 350 })]

/-- **C8**: the status probe deletes exactly the cache entries whose age
`now - timestamp` strictly exceeds 300 seconds and reports the count
removed, so after the probe every remaining entry has age at most 300
seconds; it reports the cache size (taken before the sweep); and the
resolver never deletes a key — any key present before a resolve call is
still present after it. -/
theorem c8_status_sweep
    (cache : Cache) (now : Nat) (hn : (cache.map Prod.fst).Nodup) :
    (admin_status cache now).2 =
      cache.filter
        (fun kv => !(decide (now - kv.2.timestamp > CACHE_DURATION))) ∧
    (admin_status cache now).1.expired_cache_cleaned =
      (cache.filter
        (fun kv => decide (now - kv.2.timestamp > CACHE_DURATION))).length ∧
    (admin_status cache now).1.cache_entries = cache.length ∧
    (∀ kv ∈ (admin_status cache now).2,
      now - kv.2.timestamp ≤ CACHE_DURATION) ∧
    (∀ sd now2 ca2 e p k, containsKey cache k = true →
      containsKey (check_gumroad_subscription sd now2 ca2 cache e p).2 k
        = true) := by
  refine ⟨sweep_eq_filter hn, ?_, rfl, ?_, ?_⟩
  · show (expiredKeys cache now).length = _
    unfold expiredKeys
    rw [List.length_map]
  · intro kv hkv
    rw [admin_status_snd, sweep_eq_filter hn] at hkv
    rcases List.mem_filter.mp hkv with ⟨hmem, hcond⟩
    simp only [Bool.not_eq_true', decide_eq_false_iff_not, not_lt] at hcond
    exact hcond
  · intro sd now2 ca2 e p k h
    exact check_preserves_keys sd now2 ca2 cache e p k h

/-- Witness for `c8_status_sweep` at a concrete mixed-age cache. -/
theorem c8_witness :
    ((exCacheMixed.map Prod.fst).Nodup) ∧
    ((admin_status exCacheMixed 400).2 =
      exCacheMixed.filter
        (fun kv => !(decide (400 - kv.2.timestamp > CACHE_DURATION))) ∧
     (admin_status exCacheMixed 400).1.expired_cache_cleaned =
      (exCacheMixed.filter
        (fun kv => decide (400 - kv.2.timestamp > CACHE_DURATION))).length ∧
     (admin_status exCacheMixed 400).1.cache_entries = exCacheMixed.length ∧
     (∀ kv ∈ (admin_status exCacheMixed 400).2,
       400 - kv.2.timestamp ≤ CACHE_DURATION) ∧
     (∀ sd now2 ca2 e p k, containsKey exCacheMixed k = true →
       containsKey
         (check_gumroad_subscription sd now2 ca2 exCacheMixed e p).2 k
           = true)) :=
  ⟨by decide, c8_status_sweep exCacheMixed 400 (by decide)⟩

/-- **C9**: at the exact freshness boundary — an entry whose age is
exactly 300 seconds — the resolver does not serve the entry (the
freshness test is the strict `now - timestamp < 300`) and recomputes
via the miss path, yet the status-probe sweep keeps the entry and the
cache listing reports it with `cache_expired = false` (both use the
strict `> 300` test). -/
theorem c9_boundary_age
    (cache : Cache) (now : Nat) (email productId : String)
    (entry : CacheEntry) (hn : (cache.map Prod.fst).Nodup)
    (hlook : lookupCache cache (cacheKey email productId) = some entry)
    (hage : now - entry.timestamp = CACHE_DURATION) :
    freshHit cache now (cacheKey email productId) = none ∧
    (∀ sd ca, check_gumroad_subscription sd now ca cache email productId
        = resolveUpstream sd now ca cache email productId) ∧
    lookupCache (admin_status cache now).2 (cacheKey email productId)
        = some entry ∧
    ({ data := entry.data, cache_key := cacheKey email productId,
       cache_age_seconds := CACHE_DURATION, cache_expired := false }
        : SubscriberInfo) ∈ get_subscribers cache now := by
  have hmiss : freshHit cache now (cacheKey email productId) = none := by
    unfold freshHit
    rw [hlook]
    simp [hage]
  refine ⟨hmiss, ?_, ?_, ?_⟩
  · intro sd ca
    unfold check_gumroad_subscription
    rw [hmiss]
  · rw [admin_status_snd, sweep_eq_filter hn]
    exact lookup_filter_keep _ hlook (by simp [hage])
  · have hmem := lookup_mem hlook
    unfold get_subscribers
    refine List.mem_map.mpr ⟨(cacheKey email productId, entry), hmem, ?_⟩
    simp [hage]

/-- Witness for `c9_boundary_age` at a concrete entry aged exactly 300
seconds. -/
theorem c9_witness :
    (([(cacheKey "x@y.com" "p1",
        ({ data := exVerdict, timestamp := 100 } : CacheEntry))].map
          Prod.fst).Nodup) ∧
    lookupCache [(cacheKey "x@y.com" "p1",
        ({ data := exVerdict, timestamp := 100 } : CacheEntry))]
      (cacheKey "x@y.com" "p1")
        = some ({ data := exVerdict, timestamp := 100 } : CacheEntry) ∧
    400 - ({ data := exVerdict, timestamp := 100 } : CacheEntry).timestamp
        = CACHE_DURATION ∧
    (freshHit [(cacheKey "x@y.com" "p1",
        ({ data := exVerdict, timestamp := 100 } : CacheEntry))] 400
      (cacheKey "x@y.com" "p1") = none ∧
     (∀ sd ca, check_gumroad_subscription sd 400 ca
          [(cacheKey "x@y.com" "p1",
            ({ data := exVerdict, timestamp := 100 } : CacheEntry))]
          "x@y.com" "p1"
        = resolveUpstream sd 400 ca
            [(cacheKey "x@y.com" "p1",
              ({ data := exVerdict, timestamp := 100 } : CacheEntry))]
            "x@y.com" "p1") ∧
     lookupCache
        (admin_status [(cacheKey "x@y.com" "p1",
          ({ data := exVerdict, timestamp := 100 } : CacheEntry))] 400).2
        (cacheKey "x@y.com" "p1")
          = some ({ data := exVerdict, timestamp := 100 } : CacheEntry) ∧
     ({ data := ({ data := exVerdict, timestamp := 100 } : CacheEntry).data,
        cache_key := cacheKey "x@y.com" "p1",
        cache_age_seconds := CACHE_DURATION, cache_expired := false }
          : SubscriberInfo) ∈
        get_subscribers [(cacheKey "x@y.com" "p1",
          ({ data := exVerdict, timestamp := 100 } : CacheEntry))] 400) :=
  ⟨by decide, by decide, by decide,
   c9_boundary_age
     [(cacheKey "x@y.com" "p1",
       ({ data := exVerdict, timestamp := 100 } : CacheEntry))]
     400 "x@y.com" "p1" ({ data := exVerdict, timestamp := 100 } : CacheEntry)
     (by decide) (by decide) (by decide)⟩

/-- **C10**: in the `/check-subscription` response, `cached` equals key
membership in the cache as it stands after the resolve call
(response-assembly time); it is `false` exactly when the key was absent
beforehand and the upstream call failed — so it is `true` even on the
very first request for a key when the upstream call succeeds (the write
precedes response assembly), and `true` whenever any entry, fresh or
stale, already existed. -/
theorem c10_cached_field
    (sd : SalesData) (now : Nat) (ca : String) (cache : Cache)
    (email productId : String) :
    (check_subscription sd now ca cache email productId).1.cached
      = containsKey
          (check_gumroad_subscription sd now ca cache email productId).2
          (cacheKey email productId) ∧
    ((check_subscription sd now ca cache email productId).1.cached = false ↔
      (lookupCache cache (cacheKey email productId) = none ∧
       sd.success = some false)) := by
  refine ⟨rfl, ?_⟩
  show containsKey
      (check_gumroad_subscription sd now ca cache email productId).2
      (cacheKey email productId) = false ↔ _
  cases hlook : lookupCache cache (cacheKey email productId) with
  | some entry =>
    have hcont : containsKey cache (cacheKey email productId) = true := by
      unfold containsKey
      rw [hlook]
      rfl
    have hkeep := check_preserves_keys sd now ca cache email productId
      (cacheKey email productId) hcont
    rw [hkeep]
    simp
  | none =>
    have hmiss : freshHit cache now (cacheKey email productId) = none := by
      unfold freshHit
      rw [hlook]
    by_cases hfail : sd.success = some false
    · rw [check_miss_fail hmiss hfail]
      show containsKey cache (cacheKey email productId) = false ↔ _
      unfold containsKey
      rw [hlook]
      simp [hfail]
    · rw [check_miss_ok hmiss hfail]
      have hfull : containsKey
          (insertCache cache (cacheKey email productId)
            { data := computeVerdict sd ca email productId, timestamp := now })
          (cacheKey email productId) = true := by
        unfold containsKey
        rw [lookup_insertCache_self]
        rfl
      show containsKey
          (insertCache cache (cacheKey email productId)
            { data := computeVerdict sd ca email productId, timestamp := now })
          (cacheKey email productId) = false ↔ _
      rw [hfull]
      simp [hfail]

end GumroadApi
